import Mathlib

/-!
Verification of the AgentGovern-OS governance control plane.

This file gives a shallow embedding, in Lean, of the core data model and
operations of the AgentGovern-OS repository — the edge gateway's local
decision ledger, passport verifier and local policy enforcer, the control
plane's policy-bundle distribution service, passport service, ANCESTOR
decision ledger, and the prophecy simulator — and proves or refutes the
behavioural claims made about them in the specification.

Modelling conventions:
  * Python `float` values that flow through hashing, rule evaluation and the
    prophecy arithmetic are modelled as exact rationals (`ℚ`).  Every concrete
    input used below is a short decimal for which Python's binary-float
    arithmetic and repr coincide with the exact rational computation.
  * Python `dict`s are modelled as records of the keys the code reads (with
    `Option` fields mirroring `dict.get` defaults) or as association lists
    when they are serialized.
  * `datetime` values are modelled by their ISO-8601 text (the only use the
    hashed payloads make of them) or by integers (UNIX seconds) where only
    ordering against `exp` matters.
  * Sources of nondeterminism (`uuid4`, `now()`) become explicit arguments.
  * SHA-256 is implemented in full over byte lists, so every hash below is
    the real digest and hash (in)equalities are decided by computation.
-/

set_option maxRecDepth 100000

namespace AgentGovern

/-! ## SHA-256, executable over byte lists -/

namespace SHA256

/-- Mask to 32 bits. -/
def mask32 (x : Nat) : Nat := x % 4294967296

/-- 32-bit rotate right. -/
def rotr (n x : Nat) : Nat := mask32 ((x >>> n) ||| (x <<< (32 - n)))

/-- Logical shift right. -/
def shr (n x : Nat) : Nat := x >>> n

def bigSigma0 (x : Nat) : Nat := (rotr 2 x) ^^^ (rotr 13 x) ^^^ (rotr 22 x)
def bigSigma1 (x : Nat) : Nat := (rotr 6 x) ^^^ (rotr 11 x) ^^^ (rotr 25 x)
def smallSigma0 (x : Nat) : Nat := (rotr 7 x) ^^^ (rotr 18 x) ^^^ (shr 3 x)
def smallSigma1 (x : Nat) : Nat := (rotr 17 x) ^^^ (rotr 19 x) ^^^ (shr 10 x)

/-- Choice function; `4294967295 - x` is bitwise complement of a 32-bit `x`. -/
def ch (x y z : Nat) : Nat := (x &&& y) ^^^ ((4294967295 - x) &&& z)

/-- Majority function. -/
def maj (x y z : Nat) : Nat := (x &&& y) ^^^ (x &&& z) ^^^ (y &&& z)

/-- The 64 round constants of FIPS 180-4 (decimal). -/
def K : List Nat :=
  [1116352408, 1899447441, 3049323471, 3921009573,
   961987163, 1508970993, 2453635748, 2870763221,
   3624381080, 310598401, 607225278, 1426881987,
   1925078388, 2162078206, 2614888103, 3248222580,
   3835390401, 4022224774, 264347078, 604807628,
   770255983, 1249150122, 1555081692, 1996064986,
   2554220882, 2821834349, 2952996808, 3210313671,
   3336571891, 3584528711, 113926993, 338241895,
   666307205, 773529912, 1294757372, 1396182291,
   1695183700, 1986661051, 2177026350, 2456956037,
   2730485921, 2820302411, 3259730800, 3345764771,
   3516065817, 3600352804, 4094571909, 275423344,
   430227734, 506948616, 659060556, 883997877,
   958139571, 1322822218, 1537002063, 1747873779,
   1955562222, 2024104815, 2227730452, 2361852424,
   2428436474, 2756734187, 3204031479, 3329325298]
/-- The initial hash state of FIPS 180-4 (decimal). -/
def initH : List Nat :=
  [1779033703,
   3144134277,
   1013904242,
   2773480762,
   1359893119,
   2600822924,
   528734635,
   1541459225]
/-- Big-endian bytes of a `Nat`, `n` bytes wide. -/
def beBytes : Nat → Nat → List Nat
  | 0, _ => []
  | Nat.succ k, x => beBytes k (x >>> 8) ++ [x % 256]

/-- SHA-256 padding: append `0x80`, zeros to 56 mod 64, and the 64-bit
big-endian bit length. -/
def pad (msg : List Nat) : List Nat :=
  let len := msg.length
  let zeros := (120 - (len + 1) % 64) % 64
  msg ++ [0x80] ++ List.replicate zeros 0 ++ beBytes 8 (len * 8)

/-- Group bytes into big-endian 32-bit words. -/
def toWords : List Nat → List Nat
  | b0 :: b1 :: b2 :: b3 :: rest =>
      (((b0 <<< 8 ||| b1) <<< 8 ||| b2) <<< 8 ||| b3) :: toWords rest
  | _ => []

/-- Message schedule: extend 16 words to 64.  `acc` holds the words produced
so far in reverse order, so the words the recurrence needs sit at small
indices. -/
def scheduleAux : Nat → List Nat → List Nat
  | 0, acc => acc.reverse
  | Nat.succ k, acc =>
      let w2 := acc.getD 1 0
      let w7 := acc.getD 6 0
      let w15 := acc.getD 14 0
      let w16 := acc.getD 15 0
      let w := mask32 (smallSigma1 w2 + w7 + smallSigma0 w15 + w16)
      scheduleAux k (w :: acc)

def schedule (block : List Nat) : List Nat :=
  scheduleAux 48 block.reverse

/-- One compression round over the state `(a,b,c,d,e,f,g,h)` held as a list. -/
def round (st : List Nat) (kw : Nat × Nat) : List Nat :=
  match st with
  | [a, b, c, d, e, f, g, h] =>
      let t1 := mask32 (h + bigSigma1 e + ch e f g + kw.1 + kw.2)
      let t2 := mask32 (bigSigma0 a + maj a b c)
      [mask32 (t1 + t2), a, b, c, mask32 (d + t1), e, f, g]
  | other => other

def compress (h : List Nat) (block : List Nat) : List Nat :=
  let w := schedule block
  let st := (K.zip w).foldl round h
  (h.zip st).map (fun p => mask32 (p.1 + p.2))

/-- Fold the compression function over the 16-word blocks. -/
def blocksAux : Nat → List Nat → List Nat → List Nat
  | 0, h, _ => h
  | Nat.succ k, h, words => blocksAux k (compress h (words.take 16)) (words.drop 16)

def sha256Bytes (msg : List Nat) : List Nat :=
  let words := toWords (pad msg)
  let h := blocksAux (words.length / 16) initH words
  h.flatMap (beBytes 4)

def hexDigit (n : Nat) : Char := "0123456789abcdef".toList.getD n (Char.ofNat 48)

def hexByte (b : Nat) : String :=
  String.mk [hexDigit (b / 16), hexDigit (b % 16)]

def toHex (bs : List Nat) : String :=
  String.join (bs.map hexByte)

/-- Bytes of an ASCII string (every string hashed below is ASCII, where
UTF-8 bytes and code points coincide). -/
def strBytes (s : String) : List Nat := s.data.map Char.toNat

/-- SHA-256 of an ASCII string as a lowercase hex digest — the Lean
counterpart of Python `hashlib.sha256(s.encode()).hexdigest()`. -/
def sha256Hex (s : String) : String := toHex (sha256Bytes (strBytes s))

end SHA256

export SHA256 (sha256Hex)

/-! ## Python `json.dumps(·, sort_keys=True)` over a JSON value model

All three hashed payloads in the repository are produced by
`json.dumps(payload, sort_keys=True)` with the default separators
`", "` and `": "`.  `PyJson` models the JSON values that occur in those
payloads, and `pyDumps` reproduces the serialized text byte for byte:
object keys sorted lexicographically, `", "` between items, `": "` after
keys.  (`default=str`, passed in two call sites, only matters for values
that are not JSON-serializable; none occur in the payloads modelled here.)
-/

inductive PyJson where
  | str (s : String)
  | int (n : ℤ)
  | float (q : ℚ)
  | bool (b : Bool)
  | null
  | arr (xs : List PyJson)
  | obj (kvs : List (String × PyJson))

/-- Lexicographic strict order on character lists by code point — the
comparison Python's `sort_keys=True` uses on the (ASCII) keys occurring in
the repository's payloads. -/
def ltChars : List Char → List Char → Bool
  | [], [] => false
  | [], _ :: _ => true
  | _ :: _, [] => false
  | a :: as, b :: bs =>
      if a.toNat < b.toNat then true
      else if b.toNat < a.toNat then false
      else ltChars as bs

/-- Strict lexicographic order on strings, as a computable Bool. -/
def strLtB (a b : String) : Bool := ltChars a.data b.data

namespace PyJson

/-- Escape a character as Python's `json` module does for ASCII text:
backslash and double quote get a backslash; all other characters appearing
in the repository's payloads are printable ASCII and pass through. -/
def escapeChar (c : Char) : String :=
  if c = Char.ofNat 34 then String.mk [Char.ofNat 92, Char.ofNat 34]
  else if c = Char.ofNat 92 then String.mk [Char.ofNat 92, Char.ofNat 92]
  else String.singleton c

def quote (s : String) : String :=
  String.singleton (Char.ofNat 34) ++ String.join (s.data.map escapeChar)
    ++ String.singleton (Char.ofNat 34)

/-- Fractional decimal digits of `r / d` for `0 ≤ r < d`, stopping at the
exact expansion (within `fuel` digits) — matching Python's repr of a float
whose shortest decimal form terminates, which is true of every concrete
value used in this file. -/
def fracDigits : Nat → Nat → Nat → String
  | 0, _, _ => ""
  | Nat.succ k, r, d =>
      if r = 0 then ""
      else
        let r10 := r * 10
        String.singleton (Char.ofNat (48 + r10 / d)) ++ fracDigits k (r10 % d) d

/-- Python float repr of the nonnegative rational `n / d`: integral values
render as `"N.0"`. -/
def floatReprPos (n d : Nat) : String :=
  let ds := fracDigits 17 (n % d) d
  if ds = "" then toString (n / d) ++ ".0" else toString (n / d) ++ "." ++ ds

/-- Python float repr (JSON number text) of a rational. -/
def floatRepr (q : ℚ) : String :=
  if q.num < 0 then "-" ++ floatReprPos (-q.num).toNat q.den
  else floatReprPos q.num.toNat q.den

/-- Insert a key-value pair into a key-sorted association list. -/
def insertPair (p : String × PyJson) : List (String × PyJson) → List (String × PyJson)
  | [] => [p]
  | q :: rest => if strLtB p.1 q.1 then p :: q :: rest else q :: insertPair p rest

/-- Sort an association list by key (keys are pairwise distinct in every
payload modelled here, so stability is irrelevant). -/
def sortPairs (l : List (String × PyJson)) : List (String × PyJson) :=
  l.foldr insertPair []

/-- String punctuation pieces (braces written via code points). -/
def lbrace : String := String.singleton (Char.ofNat 123)
def rbrace : String := String.singleton (Char.ofNat 125)

/-- Serialization with explicit fuel bounding the nesting depth; the
payloads in this file have depth at most 4. -/
def dumpsAux : Nat → PyJson → String
  | 0, _ => ""
  | Nat.succ _, .str s => quote s
  | Nat.succ _, .int n => toString n
  | Nat.succ _, .float q => floatRepr q
  | Nat.succ _, .bool b => if b then "true" else "false"
  | Nat.succ _, .null => "null"
  | Nat.succ k, .arr xs =>
      "[" ++ String.intercalate ", " (xs.map (dumpsAux k)) ++ "]"
  | Nat.succ k, .obj kvs =>
      lbrace
        ++ String.intercalate ", "
            ((sortPairs kvs).map (fun p => quote p.1 ++ ": " ++ dumpsAux k p.2))
        ++ rbrace

/-- The Lean counterpart of `json.dumps(v, sort_keys=True)`. -/
def pyDumps (v : PyJson) : String := dumpsAux 100 v

end PyJson

export PyJson (pyDumps)

/-! ## Kernel-computable rational arithmetic

Python `float` arithmetic in the source is modelled by exact rational
arithmetic.  Mathlib marks `Rat.add`, `Rat.mul`, `Rat.sub`, `Rat.neg`,
`Rat.div` `@[irreducible]`, so concrete values built with them cannot be
evaluated inside `decide` proofs; the `q*` operations below compute the
same functions through `Rat.normalize`, which does reduce.  The bridge
theorems at the end of the file prove each of them equal to the
corresponding Mathlib operation.
-/

theorem ten_pow_ne_zero (k : Nat) : (10 : Nat) ^ k ≠ 0 :=
  (Nat.pos_pow_of_pos k (by decide)).ne'

/-- Decimal literal `n · 10⁻ᵏ` as an exact rational (`dec 57 2 = 0.57`). -/
def dec (n : ℤ) (k : Nat) : ℚ := Rat.normalize n (10 ^ k) (ten_pow_ne_zero k)

/-- Kernel-computable negation on `ℚ`. -/
def qneg (a : ℚ) : ℚ :=
  { num := -a.num, den := a.den, den_nz := a.den_nz,
    reduced := by rw [Int.natAbs_neg]; exact a.reduced }

/-- Kernel-computable addition on `ℚ`. -/
def qadd (a b : ℚ) : ℚ :=
  Rat.normalize (a.num * (b.den : ℤ) + b.num * (a.den : ℤ)) (a.den * b.den)
    (Nat.mul_ne_zero a.den_nz b.den_nz)

/-- Kernel-computable subtraction on `ℚ`. -/
def qsub (a b : ℚ) : ℚ := qadd a (qneg b)

/-- Kernel-computable multiplication on `ℚ`. -/
def qmul (a b : ℚ) : ℚ :=
  Rat.normalize (a.num * b.num) (a.den * b.den)
    (Nat.mul_ne_zero a.den_nz b.den_nz)

/-- Kernel-computable division on `ℚ` (0 when the divisor is 0, matching
Mathlib; the embedded code never divides by zero on the paths proved
below). -/
def qdiv (a b : ℚ) : ℚ :=
  if h : 0 < b.num then
    Rat.normalize (a.num * (b.den : ℤ)) (a.den * b.num.toNat)
      (Nat.mul_ne_zero a.den_nz (by
        intro hz
        exact absurd ((Int.toNat_eq_zero.mp hz)) (not_le.mpr h)))
  else if h2 : b.num < 0 then
    Rat.normalize (-(a.num * (b.den : ℤ))) (a.den * (-b.num).toNat)
      (Nat.mul_ne_zero a.den_nz (by
        intro hz
        have := Int.toNat_eq_zero.mp hz
        omega))
  else 0

/-- Python `min` on rationals. -/
def qmin (a b : ℚ) : ℚ := if a ≤ b then a else b

/-- Python `round(q, k)` as an exact rational: round half up.  Python
rounds decimal half-way ties to even, but no value rounded in this file
ever sits on a tie, so the two agree on every value below. -/
def pyRoundK (k : Nat) (q : ℚ) : ℚ :=
  let m : ℤ := ((10 : Nat) ^ k : Nat)
  Rat.normalize (Int.fdiv (2 * q.num * m + (q.den : ℤ)) (2 * (q.den : ℤ))) (10 ^ k)
    (ten_pow_ne_zero k)

def pyRound2 (q : ℚ) : ℚ := pyRoundK 2 q
def pyRound3 (q : ℚ) : ℚ := pyRoundK 3 q
def pyRound4 (q : ℚ) : ℚ := pyRoundK 4 q

/-! ## Edge gateway local ledger
(`src/services/edge-gateway/identity/local_ledger.py`)

`LocalDecision` mirrors the dataclass: `timestamp` is kept as its ISO-8601
text (the only use the code makes of it is `isoformat()` inside the hash
payload), `id` and `timestamp` are explicit arguments where the source
draws a fresh `uuid4()` / `now()`. -/

structure LocalDecision where
  agent_id : String
  action_type : String
  resource : String
  amount : ℚ
  environment : String
  verdict : String
  reason : String
  passport_jti : String
  gateway_id : String
  id : String
  timestamp : String
  hash : String := ""
  synced : Bool := false
deriving Repr, DecidableEq

namespace LocalDecision

/-- The payload dict built by `LocalDecision._compute_hash` — exactly the
seven keys the source hashes; there is no `prev_hash` key. -/
def hashPayload (d : LocalDecision) : PyJson :=
  .obj [("id", .str d.id),
        ("agent_id", .str d.agent_id),
        ("action_type", .str d.action_type),
        ("verdict", .str d.verdict),
        ("amount", .float d.amount),
        ("environment", .str d.environment),
        ("timestamp", .str d.timestamp)]

/-- Mirrors `LocalDecision._compute_hash`. -/
def compute_hash (d : LocalDecision) : String :=
  sha256Hex (pyDumps d.hashPayload)

end LocalDecision

/-- Build a `LocalDecision` as `__post_init__` does: the `hash` field is the
SHA-256 of the canonical payload. -/
def mkLocalDecision (agent_id action_type resource : String) (amount : ℚ)
    (environment verdict reason passport_jti gateway_id id timestamp : String) :
    LocalDecision :=
  let d : LocalDecision :=
    { agent_id := agent_id, action_type := action_type, resource := resource,
      amount := amount, environment := environment, verdict := verdict,
      reason := reason, passport_jti := passport_jti, gateway_id := gateway_id,
      id := id, timestamp := timestamp }
  { d with hash := d.compute_hash }

/-- State of `LocalLedger`: append-only entry list plus `last_decision_id`. -/
structure LocalLedger where
  gateway_id : String
  entries : List LocalDecision := []
  last_decision_id : String := ""
deriving Repr, DecidableEq

namespace LocalLedger

/-- Mirrors `LocalLedger.record_decision` — constructs the entry, appends it and
returns its id (here paired with the successor state). -/
def record_decision (l : LocalLedger) (agent_id action_type resource : String)
    (amount : ℚ) (environment verdict reason passport_jti : String)
    (id timestamp : String) : String × LocalLedger :=
  let entry := mkLocalDecision agent_id action_type resource amount environment
    verdict reason passport_jti l.gateway_id id timestamp
  (entry.id,
   { l with entries := l.entries ++ [entry], last_decision_id := entry.id })

def size (l : LocalLedger) : Nat := l.entries.length

end LocalLedger

/-- The hash payload the specification claims for a gateway ledger record:
the seven fields the code hashes *plus* `prev_hash`.  This definition
follows the specification's words, for comparison against
`LocalDecision.hashPayload`, which follows the code. -/
def specChainedPayload (d : LocalDecision) (prev_hash : String) : PyJson :=
  .obj [("id", .str d.id),
        ("agent_id", .str d.agent_id),
        ("action_type", .str d.action_type),
        ("verdict", .str d.verdict),
        ("amount", .float d.amount),
        ("environment", .str d.environment),
        ("timestamp", .str d.timestamp),
        ("prev_hash", .str prev_hash)]

/-- The record hash the specification claims (SHA-256 over the
`prev_hash`-chained payload), following the specification's words. -/
def specChainedHash (d : LocalDecision) (prev_hash : String) : String :=
  sha256Hex (pyDumps (specChainedPayload d prev_hash))

/-! ## Policy distribution service
(`src/services/governance-api/policy/distribution.py`)

`PolicyRule.parameters` is an association list spliced into `to_dict()`
exactly as `**self.parameters` splices it into the dict literal; parameter
keys in the repository are disjoint from the fixed keys.  `created_at` is
not serialized and not modelled.  Bundle `valid_from`/`valid_until`/
`metadata`/`id` do not enter the hash payload; `metadata` and `id` are kept,
the timestamps elided.  Where the source draws `version` from the current
date and `id` from `uuid4()`, they are explicit arguments. -/

structure PolicyRule where
  id : String
  name : String := ""
  type : String := ""
  parameters : List (String × PyJson) := []
  on_fail : String := "deny"
  environment_scope : List String := ["cloud", "edge", "client"]
  active : Bool := true

namespace PolicyRule

/-- Mirrors `PolicyRule.to_dict` — the fixed keys with `**parameters` spliced in. -/
def to_dict (r : PolicyRule) : PyJson :=
  .obj ([("id", .str r.id), ("name", .str r.name), ("type", .str r.type)]
    ++ r.parameters
    ++ [("on_fail", .str r.on_fail),
        ("environment_scope", .arr (r.environment_scope.map .str)),
        ("active", .bool r.active)])

end PolicyRule

/-- The payload dict of `PolicyBundle._compute_hash`: version, the rules in
the order they sit in the bundle, and the parent hash. -/
def bundleHashPayload (version : String) (rules : List PolicyRule)
    (parent_hash : String) : PyJson :=
  .obj [("version", .str version),
        ("rules", .arr (rules.map PolicyRule.to_dict)),
        ("parent_hash", .str parent_hash)]

/-- Mirrors `PolicyBundle._compute_hash`. -/
def computeBundleHash (version : String) (rules : List PolicyRule)
    (parent_hash : String) : String :=
  sha256Hex (pyDumps (bundleHashPayload version rules parent_hash))

structure PolicyBundle where
  version : String
  rules : List PolicyRule
  hash : String := ""
  parent_hash : String := ""
  metadata : List (String × PyJson) := []
  id : String := ""

namespace PolicyBundle

/-- Mirrors `PolicyBundle._compute_hash` on a bundle value. -/
def compute_hash (b : PolicyBundle) : String :=
  computeBundleHash b.version b.rules b.parent_hash

/-- Mirrors `PolicyBundle.verify_integrity`. -/
def verify_integrity (b : PolicyBundle) : Bool :=
  b.hash == b.compute_hash

end PolicyBundle

/-- Build a bundle as `__post_init__` does (the `hash` argument of the
dataclass defaults to `""`, so the hash is always computed). -/
def mkPolicyBundle (version : String) (rules : List PolicyRule)
    (parent_hash : String) (metadata : List (String × PyJson)) (id : String) :
    PolicyBundle :=
  { version := version, rules := rules,
    hash := computeBundleHash version rules parent_hash,
    parent_hash := parent_hash, metadata := metadata, id := id }

/-- Insertion sort of rules by `id` (ascending). -/
def insertRuleById (r : PolicyRule) : List PolicyRule → List PolicyRule
  | [] => [r]
  | x :: xs => if strLtB r.id x.id then r :: x :: xs else x :: insertRuleById r xs

def sortRulesById (rs : List PolicyRule) : List PolicyRule :=
  rs.foldr insertRuleById []

/-- The bundle hash the specification claims: SHA-256 over the canonical
JSON of version, the rules *sorted by rule id*, and the parent hash.  This
definition follows the specification's words, for comparison against
`computeBundleHash`, which follows the code. -/
def specBundleHashSorted (version : String) (rules : List PolicyRule)
    (parent_hash : String) : String :=
  sha256Hex (pyDumps (bundleHashPayload version (sortRulesById rules) parent_hash))

/-- State of `PolicyDistributionService`. -/
structure PolicyDistributionService where
  bundles : List PolicyBundle := []
  current : Option PolicyBundle := none
  rollback_stack : List String := []

namespace PolicyDistributionService

/-- Mirrors `PolicyDistributionService.create_bundle`: `parent_hash` is the hash of
the current bundle (or `""`), the previous current version is pushed on the
rollback stack, the new bundle is appended and becomes current.  `version`
and `id` are explicit (the source generates a date-based version when the
caller passes none, and `uuid4()` for `id`). -/
def create_bundle (s : PolicyDistributionService) (rules : List PolicyRule)
    (version : String) (metadata : List (String × PyJson)) (id : String) :
    PolicyBundle × PolicyDistributionService :=
  let parent_hash := match s.current with
    | some c => c.hash
    | none => ""
  let bundle := mkPolicyBundle version rules parent_hash metadata id
  let stack := match s.current with
    | some c => s.rollback_stack ++ [c.version]
    | none => s.rollback_stack
  (bundle,
   { bundles := s.bundles ++ [bundle], current := some bundle,
     rollback_stack := stack })

def get_current_bundle (s : PolicyDistributionService) : Option PolicyBundle :=
  s.current

def get_bundle_by_version (s : PolicyDistributionService) (version : String) :
    Option PolicyBundle :=
  s.bundles.find? (fun b => b.version == version)

/-- The `target_version` branch of `rollback`: repoint `current` at the
bundle with that version, if any; no bundle is created. -/
def rollbackTo (s : PolicyDistributionService) (target : String) :
    Option PolicyBundle × PolicyDistributionService :=
  match s.get_bundle_by_version target with
  | some b => (some b, { s with current := some b })
  | none => (none, s)

/-- Mirrors `PolicyDistributionService.rollback`: with an empty `target_version`,
pop the rollback stack and repoint to the popped version. -/
def rollback (s : PolicyDistributionService) (target : String) :
    Option PolicyBundle × PolicyDistributionService :=
  if target ≠ "" then s.rollbackTo target
  else
    match s.rollback_stack.getLast? with
    | some prev =>
        rollbackTo { s with rollback_stack := s.rollback_stack.dropLast } prev
    | none => (none, s)

def version_count (s : PolicyDistributionService) : Nat := s.bundles.length

end PolicyDistributionService

/-! ## Edge local policy enforcer
(`src/services/edge-gateway/identity/local_enforcer.py`)

Rules arrive as JSON dicts; `ERule` records the keys `_evaluate_rule`
reads, with `Option` fields mirroring `dict.get` (a missing key is `none`,
and the `getD` at each use site is the `dict.get` default).  The enforcer
has handlers for `amount_limit`, `trust_minimum`, `tier_required`,
`tier_minimum`, `action_allowed` and `authority_limit` only; every other
`type` — including `status_check` — takes the final fail-open branch. -/

structure ERule where
  type : String := ""
  max_amount : Option ℚ := none
  min_trust : Option ℚ := none
  allowed_tiers : Option (List String) := none
  min_tier : Option String := none
  allowed_actions : Option (List String) := none
  on_fail : Option String := none
  name : Option String := none

/-- The module-level `TIER_RANK` dict. -/
def TIER_RANK : List (String × Nat) :=
  [("T1", 4), ("T2", 3), ("T3", 2), ("T4", 1)]

/-- Mirrors `TIER_RANK.get(t, 0)`. -/
def tierRank (t : String) : Nat := (TIER_RANK.lookup t).getD 0

structure EnforcerVerdict where
  verdict : String
  reason : String
  rules_checked : Nat := 0
deriving Repr, DecidableEq

namespace LocalPolicyEnforcer

/-- Mirrors `LocalPolicyEnforcer._evaluate_rule`. -/
def evalRule (rule : ERule) (tier : String) (trust : ℚ) (limit : ℚ)
    (action : String) (amount : ℚ) (ctx : List (String × String)) : Bool :=
  if rule.type = "amount_limit" then
    decide (amount ≤ rule.max_amount.getD 0)
  else if rule.type = "trust_minimum" then
    decide (trust ≥ rule.min_trust.getD 0)
  else if rule.type = "tier_required" then
    (rule.allowed_tiers.getD []).contains tier
  else if rule.type = "tier_minimum" then
    decide (tierRank tier ≥ tierRank (rule.min_tier.getD "T4"))
  else if rule.type = "action_allowed" then
    (rule.allowed_actions.getD []).contains action
  else if rule.type = "authority_limit" then
    decide (amount ≤ limit)
  else
    -- Unknown rule type: fail-open (permissive) at edge
    true

/-- Apostrophe character, used in the failure reason text. -/
def apos : String := String.singleton (Char.ofNat 39)

/-- The failure reason `f"Rule '{name}' failed"` with
`name = rule.get('name', rule.get('type'))`. -/
def failReason (rule : ERule) : String :=
  "Rule " ++ apos ++ rule.name.getD rule.type ++ apos ++ " failed"

/-- The loop body of `LocalPolicyEnforcer.evaluate`; `checked` counts the
rules already checked. -/
def evaluateAux (tier : String) (trust : ℚ) (limit : ℚ) (action : String)
    (amount : ℚ) (ctx : List (String × String)) :
    List ERule → Nat → EnforcerVerdict
  | [], checked =>
      { verdict := "allow", reason := "All local policies passed",
        rules_checked := checked }
  | rule :: rest, checked =>
      if evalRule rule tier trust limit action amount ctx then
        evaluateAux tier trust limit action amount ctx rest (checked + 1)
      else
        { verdict := rule.on_fail.getD "deny",
          reason := failReason rule,
          rules_checked := checked + 1 }

/-- Mirrors `LocalPolicyEnforcer.evaluate` over a loaded rule list. -/
def evaluate (rules : List ERule) (agent_tier : String) (trust_score : ℚ)
    (authority_limit : ℚ) (action_type : String) (amount : ℚ)
    (ctx : List (String × String)) : EnforcerVerdict :=
  evaluateAux agent_tier trust_score authority_limit action_type amount ctx rules 0

end LocalPolicyEnforcer

/-- Enforcer state (`_rules`, `_policy_version`) as loaded by
`load_policy_bundle`. -/
structure LocalPolicyEnforcerState where
  rules : List ERule := []
  policy_version : String := "0"

/-- Mirrors `LocalPolicyEnforcer.load_policy_bundle` — replace rules and version. -/
def load_policy_bundle (e : LocalPolicyEnforcerState) (rules : List ERule)
    (version : String) : LocalPolicyEnforcerState :=
  { rules := rules, policy_version := version }

/-! ## Cloud sentinel rule evaluation
(`src/services/governance-api/routers/sentinel.py`, `_evaluate_rule`)

The cloud-side rule engine *does* implement `status_check`: it passes
exactly when `agent.status == "active"`. -/

structure SentinelAgent where
  status : String
  tier : String
  role : String := ""
  trust_score : ℚ := 0
  authority_limit : ℚ := 0

structure SentinelRule where
  type : Option String := none
  max_amount : Option ℚ := none
  min_trust : Option ℚ := none
  allowed_tiers : Option (List String) := none

/-- Mirrors `_evaluate_rule(rule, agent, action, context)`; `action.get("amount", 0)`
is the optional `actionAmount`. -/
def sentinelEvalRule (rule : SentinelRule) (agent : SentinelAgent)
    (actionAmount : Option ℚ) : Bool :=
  if rule.type = some "amount_limit" then
    decide (actionAmount.getD 0 ≤ rule.max_amount.getD 0)
  else if rule.type = some "trust_minimum" then
    decide (agent.trust_score ≥ rule.min_trust.getD 0)
  else if rule.type = some "tier_required" then
    (rule.allowed_tiers.getD []).contains agent.tier
  else if rule.type = some "status_check" then
    agent.status == "active"
  else
    -- Default: pass if rule type unknown
    true

/-! ## ANCESTOR decision ledger
(`src/services/crewai-engine/ancestor/decision_ledger.py`)

`DecisionRecord` keeps every field that enters the hash payload plus
`reasoning_trace` (the field tampered with in the scenario the spec
describes) and the other scalar fields; list/dict fields that neither the
hash nor `verify_chain` reads (`tools_used`, `delegation_chain`, …) are
elided.  The persisted `decisions` table is the record list in insertion
order; timestamps in every concrete input below increase monotonically, so
`ORDER BY timestamp ASC` is insertion order. -/

structure DecisionRecord where
  agent_id : String
  task_id : String
  decision_type : String
  input_context : List (String × PyJson) := []
  reasoning_trace : String := ""
  output_action : List (String × PyJson) := []
  confidence_score : ℚ := 0
  dispute_id : String := ""
  risk_score : ℚ := 0
  amount_involved : ℚ := 0
  currency : String := "INR"
  crewai_task_output : String := ""
  id : String
  timestamp : String
  hash : String := ""
  prev_hash : String := ""

namespace DecisionRecord

/-- The payload dict of `DecisionRecord._compute_hash` — note that
`reasoning_trace` is *not* part of it. -/
def hashPayload (d : DecisionRecord) : PyJson :=
  .obj [("id", .str d.id),
        ("agent_id", .str d.agent_id),
        ("task_id", .str d.task_id),
        ("decision_type", .str d.decision_type),
        ("output_action", .obj d.output_action),
        ("confidence_score", .float d.confidence_score),
        ("amount_involved", .float d.amount_involved),
        ("timestamp", .str d.timestamp),
        ("prev_hash", .str d.prev_hash)]

/-- Mirrors `DecisionRecord._compute_hash`. -/
def compute_hash (d : DecisionRecord) : String :=
  sha256Hex (pyDumps d.hashPayload)

/-- Mirrors `DecisionRecord.verify`. -/
def verify (d : DecisionRecord) : Bool :=
  d.hash == d.compute_hash

end DecisionRecord

/-- State of a `DecisionLedger` backed by a database: the in-memory tip plus the
persisted `decisions` table in insertion order. -/
structure DecisionLedgerState where
  last_hash : String := ""
  table : List DecisionRecord := []

namespace DecisionLedger

/-- Mirrors `DecisionLedger.record`: set `prev_hash` from the chain tip, recompute
the block hash, persist, return the new hash. -/
def record (st : DecisionLedgerState) (decision : DecisionRecord) :
    String × DecisionLedgerState :=
  let d1 := { decision with prev_hash := st.last_hash }
  let d2 := { d1 with hash := d1.compute_hash }
  (d2.hash, { last_hash := d2.hash, table := st.table ++ [d2] })

/-- The result dict of `verify_chain`. -/
structure ChainReport where
  valid : Bool
  checked : Nat
  broken_at : Option String := none
  integrity_pct : ℚ := 0
  note : Option String := none
deriving Repr, DecidableEq

/-- The scan loop of `verify_chain`: compare each row's stored `prev_hash`
against the previous row's stored `hash` and stop at the first mismatch.
No hash is ever recomputed. -/
def chainScan (prev : String) : List DecisionRecord → Option String
  | [] => none
  | r :: rest => if r.prev_hash ≠ prev then some r.id else chainScan r.hash rest

/-- Mirrors `DecisionLedger.verify_chain` (with a database): read up to `limit`
rows in insertion order, run the linkage scan, report. -/
def verify_chain (st : DecisionLedgerState) (agent_id : Option String)
    (limit : Nat) : ChainReport :=
  let rows :=
    (match agent_id with
     | some a => st.table.filter (fun (r : DecisionRecord) => r.agent_id == a)
     | none => st.table).take limit
  if rows.isEmpty then
    { valid := true, checked := 0, note := some "empty ledger" }
  else
    let broken := chainScan "" rows
    let pct := qmul
      (qdiv (qsub (rows.length : ℚ) (if broken.isSome then 1 else 0))
        (rows.length : ℚ))
      100
    { valid := broken.isNone, checked := rows.length, broken_at := broken,
      integrity_pct := pyRound2 pct }

end DecisionLedger

/-! ## JWT model

`jwt.encode` / `jwt.decode` (PyJWT, HS256) are modelled abstractly: a
token is either malformed or a payload signed under a key; decoding with
the right key recovers the payload, decoding with a wrong key or a
malformed token raises `InvalidTokenError`, and an `exp` in the past
raises `ExpiredSignatureError` (checked before revocation, as PyJWT raises
inside `decode`).  Times are UNIX seconds as integers. -/

structure AgClaims where
  name : String := ""
  role : String := ""
  tier : String := "T4"
  trust_score : ℚ := 0
  authority_limit : ℚ := 0
  allowed_environments : List String := []
  dna_fingerprint : String := ""
deriving Repr, DecidableEq

structure JwtPayload where
  sub : String
  jti : String
  iss : String := ""
  iat : ℤ := 0
  exp : ℤ
  ag : AgClaims := {}
deriving Repr, DecidableEq

inductive JwtToken where
  | malformed (raw : String)
  | signed (payload : JwtPayload) (key : String)
deriving Repr, DecidableEq

inductive JwtError where
  | expired
  | invalid
deriving Repr, DecidableEq

/-- Mirrors `jwt.decode(token, key, ..., options with verify_exp)`:
signature first, then expiry (`exp < now` raises `ExpiredSignatureError`). -/
def jwtDecode (key : String) (now : ℤ) : JwtToken → Except JwtError JwtPayload
  | .malformed _ => .error .invalid
  | .signed payload k =>
      if k ≠ key then .error .invalid
      else if payload.exp < now then .error .expired
      else .ok payload

/-! ## Passport service
(`src/services/identity-service/passport.py`)

`AgentPassport` keeps the fields `issue`/`rotate` read; `__post_init__`
defaults (24 h expiry, tier-derived authority limit) are the caller's
responsibility here since both are plain data.  The service holds the
in-memory revocation set, modelled as a jti list with membership as the
set semantics. -/

structure AgentPassport where
  agent_id : String
  agent_name : String := ""
  agent_role : String := ""
  tier : String := "T4"
  trust_score : ℚ := 0
  allowed_environments : List String := []
  dna_fingerprint : String := ""
  authority_limit : ℚ := 0
  issuer : String := "agentgovern-control-plane"
  jti : String
  issued_at : ℤ := 0
  expires_at : ℤ
deriving Repr, DecidableEq

structure PassportService where
  private_key : String
  public_key : String
  algorithm : String := "HS256"
  revocation_set : List String := []
deriving Repr, DecidableEq

/-- The verdict of `PassportService.verify`: the decoded payload, or the
exception it raises (`ExpiredSignatureError`, `InvalidTokenError`, or the
`ValueError` for a revoked jti). -/
inductive PVerify where
  | ok (payload : JwtPayload)
  | expired
  | invalid
  | revoked
deriving Repr, DecidableEq

namespace PassportService

/-- The JWT payload built by `PassportService.issue`. -/
def issuePayload (passport : AgentPassport) (now : ℤ) : JwtPayload :=
  { sub := passport.agent_id,
    jti := passport.jti,
    iss := passport.issuer,
    iat := now,
    exp := passport.expires_at,
    ag := { name := passport.agent_name,
            role := passport.agent_role,
            tier := passport.tier,
            trust_score := pyRound4 passport.trust_score,
            authority_limit := passport.authority_limit,
            allowed_environments := passport.allowed_environments,
            dna_fingerprint := passport.dna_fingerprint } }

/-- Mirrors `PassportService.issue` — sign the claims with the private key.  The
revocation set is untouched. -/
def issue (svc : PassportService) (passport : AgentPassport) (now : ℤ) :
    JwtToken :=
  .signed (issuePayload passport now) svc.private_key

/-- Mirrors `PassportService.verify` — decode with the public key, then reject a
revoked `jti`. -/
def verify (svc : PassportService) (now : ℤ) (token : JwtToken) : PVerify :=
  match jwtDecode svc.public_key now token with
  | .error .expired => .expired
  | .error .invalid => .invalid
  | .ok payload =>
      if payload.jti ∈ svc.revocation_set then .revoked else .ok payload

/-- Mirrors `PassportService.revoke` — add to the revocation set. -/
def revoke (svc : PassportService) (jti : String) : PassportService :=
  { svc with revocation_set := jti :: svc.revocation_set }

/-- Mirrors `PassportService.rotate`: `verify` the old token; on success revoke its
jti; on *any* exception (expired, malformed, already revoked) leave the
revocation set untouched; then issue the new passport. -/
def rotate (svc : PassportService) (old_token : JwtToken)
    (new_passport : AgentPassport) (now : ℤ) :
    PassportService × JwtToken :=
  match svc.verify now old_token with
  | .ok payload =>
      let svc2 := svc.revoke payload.jti
      (svc2, svc2.issue new_passport now)
  | _ => (svc, svc.issue new_passport now)

def is_revoked (svc : PassportService) (jti : String) : Bool :=
  jti ∈ svc.revocation_set

end PassportService

/-! ## Edge passport verifier
(`src/services/edge-gateway/identity/passport_verifier.py`) -/

structure VerificationResult where
  valid : Bool
  claims : Option JwtPayload
  reason : String := ""
  mode : String := "online"
deriving Repr, DecidableEq

structure PassportVerifier where
  jwt_secret : String
  control_plane_url : String := ""
  algorithm : String := "HS256"
  mode : String := "online"
  revocation_set : List String := []
deriving Repr, DecidableEq

namespace PassportVerifier

/-- Mirrors `PassportVerifier.verify`: decode (signature + expiry), then check the
local revocation cache.  The error results carry the dataclass default
`mode="online"`, the revoked/success results carry the verifier's mode,
exactly as in the source. -/
def verify (v : PassportVerifier) (now : ℤ) (token : JwtToken) :
    VerificationResult :=
  match jwtDecode v.jwt_secret now token with
  | .error .expired =>
      { valid := false, claims := none, reason := "passport expired" }
  | .error .invalid =>
      { valid := false, claims := none, reason := "invalid signature" }
  | .ok payload =>
      if payload.jti ∈ v.revocation_set then
        { valid := false, claims := none, reason := "passport revoked",
          mode := v.mode }
      else
        { valid := true, claims := some payload, reason := "", mode := v.mode }

/-- Mirrors `PassportVerifier.update_revocation_list` — *replace* the cache with
`set(revoked_jtis)`. -/
def update_revocation_list (v : PassportVerifier) (revoked_jtis : List String) :
    PassportVerifier :=
  { v with revocation_set := revoked_jtis }

/-- Mirrors `PassportVerifier.set_mode` (defined in the source, never called by the
gateway). -/
def set_mode (v : PassportVerifier) (m : String) : PassportVerifier :=
  { v with mode := m }

end PassportVerifier

/-! ## Gateway sync behaviour
(`src/services/edge-gateway/identity/sync_client.py` and
`src/services/edge-gateway/main.py`)

A sync tick runs `sync_policies` then `sync_revocation_list`.  Each fetch
either yields data (HTTP 200) or fails; the outcome is an explicit
argument.  On failure the handler logs and returns `{"status": "failed"}`
without touching any state — in particular, nothing anywhere in the
gateway ever calls `set_mode`, so `verifier.mode` keeps its boot value
`"online"`.  `/status` reports `verifier.mode`, and the authorize handler
stamps `verifier.mode` into every response. -/

structure GatewayState where
  verifier : PassportVerifier
  enforcer : LocalPolicyEnforcerState := {}
  ledger : LocalLedger

/-- The gateway as built in `lifespan` on boot. -/
def bootGateway (jwt_secret control_plane_url gateway_id : String) :
    GatewayState :=
  { verifier := { jwt_secret := jwt_secret,
                  control_plane_url := control_plane_url },
    ledger := { gateway_id := gateway_id } }

/-- Mirrors `ControlPlaneSyncClient.sync_policies`: on a 200 response load the
bundle into the enforcer and report `synced`; on any failure leave state
unchanged and report `failed`. -/
def sync_policies (st : GatewayState) (fetch : Option (List ERule × String)) :
    GatewayState × String :=
  match fetch with
  | some (rules, version) =>
      ({ st with enforcer := load_policy_bundle st.enforcer rules version },
       "synced")
  | none => (st, "failed")

/-- Mirrors `ControlPlaneSyncClient.sync_revocation_list`: on a 200 response
replace the verifier's revocation cache; on any failure leave state
unchanged. -/
def sync_revocation_list (st : GatewayState) (fetch : Option (List String)) :
    GatewayState × String :=
  match fetch with
  | some jtis =>
      ({ st with verifier := st.verifier.update_revocation_list jtis },
       "synced")
  | none => (st, "failed")

/-- One sync tick (the `/sync` handler and the startup sync): policies,
then revocations. -/
def syncTick (st : GatewayState) (policyFetch : Option (List ERule × String))
    (revFetch : Option (List String)) : GatewayState :=
  (sync_revocation_list (sync_policies st policyFetch).1 revFetch).1

/-- The `mode` field of the `/status` response. -/
def statusMode (st : GatewayState) : String := st.verifier.mode

/-- The `mode` field stamped into every authorize response. -/
def authorizeRespMode (st : GatewayState) : String := st.verifier.mode

/-- Runs `n` consecutive sync ticks in which the control plane is unreachable
(both fetches fail). -/
def failedTicks : Nat → GatewayState → GatewayState
  | 0, st => st
  | Nat.succ k, st => failedTicks k (syncTick st none none)

/-! ## Prophecy engine
(`src/services/governance-api/policy/prophecy.py`)

All arithmetic uses the kernel-computable rational operations; `Decimal`
trust deltas are rationals like everything else.  Python format strings in
cascade texts are reproduced for the values they render here. -/

structure ProphecyPath where
  path_type : String
  predicted_trust_delta : ℚ
  risk_score : ℚ
  financial_exposure : ℚ
  compliance_risk : String
  cascade_effects : List String
  recommendation_weight : ℚ := 0
  reasoning : String := ""
deriving Repr, DecidableEq

structure ProphecyResult where
  agent_id : String
  action_type : String
  amount : ℚ
  paths : List ProphecyPath
  recommended_path : String := ""
  confidence : ℚ := 0
  trigger_reason : String := ""
deriving Repr, DecidableEq

namespace ProphecyEngine

/-- Python `f"{q:.0f}"` — fixed-point with no fractional digits. -/
def fmtF0 (q : ℚ) : String := toString (pyRoundK 0 q).num

/-- Insert thousands separators into a digit string (Python `,` format). -/
def commaGroupAux : Nat → List Char → List Char
  | _, [] => []
  | k, c :: cs =>
      if k % 3 = 0 ∧ k ≠ 0 then c :: Char.ofNat 44 :: commaGroupAux (k + 1) cs
      else c :: commaGroupAux (k + 1) cs

/-- Python `f"{q:,.0f}"`. -/
def fmtComma0 (q : ℚ) : String :=
  String.mk ((commaGroupAux 0 (fmtF0 q).data.reverse).reverse)

/-- Mirrors `ProphecyEngine._simulate_approve`. -/
def simulate_approve (trust : ℚ) (authShare : ℚ) (success_rate : ℚ)
    (amount : ℚ) (tier : String) : ProphecyPath :=
  let base :=
    if success_rate ≥ dec 85 2 then
      (dec 3 2, qadd (dec 1 1) (qmul authShare (dec 2 1)),
       "High historical success rate — approve is low-risk")
    else if success_rate ≥ dec 65 2 then
      (dec 1 2, qadd (dec 3 1) (qmul authShare (dec 3 1)),
       "Moderate success rate — approve with monitoring")
    else
      (qneg (dec 5 2), qadd (dec 5 1) (qmul authShare (dec 4 1)),
       "Low success rate — approval carries significant risk")
  let predicted_delta := base.1
  let risk0 := base.2.1
  let reasoning0 := base.2.2
  -- Authority ratio amplifies risk
  let risk :=
    if authShare > dec 9 1 then qmin (qadd risk0 (dec 2 1)) 1 else risk0
  let reasoning :=
    if authShare > dec 9 1 then
      reasoning0 ++ " (near authority limit — elevated risk)"
    else reasoning0
  let cascades :=
    (if authShare > dec 8 1 then
      ["Action uses " ++ fmtF0 (qmul authShare 100) ++ "% of authority limit"]
     else []) ++
    (if risk > dec 6 1 then ["May trigger downstream compliance review"] else [])
  let financial_exposure := qmul amount risk
  let compliance_risk :=
    if risk > dec 7 1 then "high" else if risk > dec 4 1 then "medium" else "low"
  let weight := qmul success_rate (qmul (qsub 1 risk) (dec 8 1))
  { path_type := "approve",
    predicted_trust_delta := predicted_delta,
    risk_score := pyRound3 risk,
    financial_exposure := pyRound2 financial_exposure,
    compliance_risk := compliance_risk,
    cascade_effects := cascades,
    recommendation_weight := pyRound3 weight,
    reasoning := reasoning }

/-- Mirrors `ProphecyEngine._simulate_deny`. -/
def simulate_deny (trust : ℚ) (authShare : ℚ) (amount : ℚ) (tier : String) :
    ProphecyPath :=
  let senior := tier = "T1" ∨ tier = "T2"
  let predicted_delta := if senior then qneg (dec 1 2) else dec 0 2
  let risk := dec 5 2
  let cascades :=
    ["Agent action blocked — task may stall"] ++
    (if senior then
      ["Senior agent blocked — may indicate overly restrictive policy"]
     else [])
  let weight := qmul (dec 3 1) (qsub 1 authShare)
  { path_type := "deny",
    predicted_trust_delta := predicted_delta,
    risk_score := pyRound3 risk,
    financial_exposure := 0,
    compliance_risk := "none",
    cascade_effects := cascades,
    recommendation_weight := pyRound3 weight,
    reasoning := "Deny is safest but may cause operational delays" }

/-- Mirrors `ProphecyEngine._simulate_escalate`. -/
def simulate_escalate (trust : ℚ) (authShare : ℚ) (amount : ℚ)
    (tier : String) : ProphecyPath :=
  let highValue := amount > 50000
  let predicted_delta := dec 2 2
  let risk := if highValue then dec 1 1 else dec 15 2
  let cascades :=
    ["Action delayed pending human review (avg 4-24 hours)"] ++
    (if highValue then
      ["High-value action (₹" ++ fmtComma0 amount
        ++ ") — senior reviewer required"]
     else [])
  let lowTrust := trust < dec 5 1
  let weight0 := qadd (qmul (dec 5 1) authShare) (qmul (dec 3 1) (qsub 1 trust))
  let weight := if lowTrust then qadd weight0 (dec 2 1) else weight0
  let reasoning0 := "Escalation provides human oversight — moderate delay cost"
  let reasoning :=
    if lowTrust then reasoning0 ++ " (recommended for low-trust agents)"
    else reasoning0
  { path_type := "escalate",
    predicted_trust_delta := predicted_delta,
    risk_score := pyRound3 risk,
    financial_exposure := pyRound2 (qmul amount (dec 5 2)),
    compliance_risk := "low",
    cascade_effects := cascades,
    recommendation_weight := pyRound3 (qmin weight 1),
    reasoning := reasoning }

/-- Python `max(paths, key=weight)` — first maximal element wins ties. -/
def pickBest (best : ProphecyPath) : List ProphecyPath → ProphecyPath
  | [] => best
  | p :: rest =>
      pickBest
        (if p.recommendation_weight > best.recommendation_weight then p else best)
        rest

/-- Insert into a descending-sorted rational list. -/
def insertDesc (w : ℚ) : List ℚ → List ℚ
  | [] => [w]
  | x :: xs => if w ≥ x then w :: x :: xs else x :: insertDesc w xs

def sortDesc (ws : List ℚ) : List ℚ := ws.foldr insertDesc []

/-- Mirrors `ProphecyEngine.simulate`. -/
def simulate (agent_id : String) (action_type : String) (amount : ℚ)
    (trust_score : ℚ) (tier : String) (authority_limit : ℚ)
    (historical_success_rate : ℚ) (trigger_reason : String) : ProphecyResult :=
  let authShare :=
    if authority_limit > 0 then qdiv amount authority_limit else 1
  let approve :=
    simulate_approve trust_score authShare historical_success_rate amount tier
  let deny := simulate_deny trust_score authShare amount tier
  let escalate := simulate_escalate trust_score authShare amount tier
  let paths := [approve, deny, escalate]
  let best := pickBest approve [deny, escalate]
  let weights := sortDesc (paths.map ProphecyPath.recommendation_weight)
  let spread :=
    match weights with
    | w1 :: w2 :: _ => qsub w1 w2
    | _ => 0
  let confidence := qmin (qadd (dec 5 1) spread) 1
  { agent_id := agent_id,
    action_type := action_type,
    amount := amount,
    paths := paths,
    recommended_path := best.path_type,
    confidence := pyRound3 confidence,
    trigger_reason := trigger_reason }

end ProphecyEngine

/-! ## Remaining helper definitions and the concrete inputs used below -/

/-- A default `ProphecyPath` (for `List.getD`). -/
def ProphecyPath.dflt : ProphecyPath :=
  { path_type := "", predicted_trust_delta := 0, risk_score := 0,
    financial_exposure := 0, compliance_risk := "", cascade_effects := [] }

namespace PolicyDistributionService

/-- Apply a sequence of `create_bundle` calls (rules, version, id) with no
intervening rollback. -/
def applyCreates (s : PolicyDistributionService) :
    List (List PolicyRule × String × String) → PolicyDistributionService
  | [] => s
  | (rules, version, id) :: rest =>
      applyCreates (s.create_bundle rules version [] id).2 rest

/-- The hash of the current bundle, `""` when there is none — the value
`create_bundle` uses as the next `parent_hash`. -/
def tipHash (s : PolicyDistributionService) : String :=
  match s.current with
  | some c => c.hash
  | none => ""

end PolicyDistributionService

/-- The published list forms a parent-hash chain starting at `prev`. -/
def chainedFrom (prev : String) : List PolicyBundle → Prop
  | [] => True
  | b :: rest => b.parent_hash = prev ∧ chainedFrom b.hash rest

/-- As `chainedFrom`, and moreover the chain ends at tip hash `tip`. -/
def chainSeg (prev : String) : List PolicyBundle → String → Prop
  | [], tip => tip = prev
  | b :: rest, tip => b.parent_hash = prev ∧ chainSeg b.hash rest tip

/-! ### Concrete inputs

Shared concrete values used by the scenario theorems below.  Ids and
timestamps stand in for the source's `uuid4()` / `now()` draws; timestamps
increase monotonically. -/

/-- A decision as the authorize handler records it (spec scenario S1). -/
def exampleDecision : LocalDecision :=
  mkLocalDecision "agent-1" "write" "doc-1" 45000 "edge" "allow"
    "All local policies passed" "jti-1" "edge-gateway-001" "d-1"
    "2026-01-01T00:00:00+00:00"

/-- Policy rule `POL-A` (id alphabetically first). -/
def ruleA : PolicyRule :=
  { id := "POL-A", name := "trust floor", type := "trust_minimum",
    parameters := [("min_trust", .float (dec 5 1))], on_fail := "escalate" }

/-- Policy rule `POL-B` (id alphabetically second). -/
def ruleB : PolicyRule :=
  { id := "POL-B", name := "amount cap", type := "amount_limit",
    parameters := [("max_amount", .int 100000)], on_fail := "deny" }

/-- A bundle whose rules are *not* in id order. -/
def exampleBundle : PolicyBundle :=
  mkPolicyBundle "v2026.01.01-001" [ruleB, ruleA] "" [] "b-1"

/-- The distribution-service state after `create v1; create v2;
rollback(); create v3`. -/
def rollbackScenario :
    (PolicyBundle × PolicyBundle × PolicyBundle) × PolicyDistributionService :=
  let r1 := PolicyDistributionService.create_bundle {} [ruleA] "v1" [] "b-1"
  let r2 := r1.2.create_bundle [] "v2" [] "b-2"
  let r3 := (r2.2.rollback "").2
  let r4 := r3.create_bundle [] "v3" [] "b-3"
  ((r1.1, r2.1, r4.1), r4.2)

/-- ANCESTOR record 1 of spec scenario S6. -/
def s6rec1 : DecisionRecord :=
  { agent_id := "agent-1", task_id := "t1", decision_type := "payment",
    reasoning_trace := "approved within limits",
    output_action := [("action", .str "approve")],
    confidence_score := dec 9 1, amount_involved := 9000,
    id := "id-1", timestamp := "2026-01-01T00:00:01" }

/-- ANCESTOR record 2 of spec scenario S6 (the one later tampered with). -/
def s6rec2 : DecisionRecord :=
  { s6rec1 with
    task_id := "t2"
    id := "id-2"
    timestamp := "2026-01-01T00:00:02" }

/-- ANCESTOR record 3 of spec scenario S6. -/
def s6rec3 : DecisionRecord :=
  { s6rec1 with
    task_id := "t3"
    id := "id-3"
    timestamp := "2026-01-01T00:00:03" }

/-- The ledger after appending the three records through
`DecisionLedger.record`. -/
def s6Ledger : DecisionLedgerState :=
  (DecisionLedger.record
    (DecisionLedger.record
      (DecisionLedger.record {} s6rec1).2 s6rec2).2 s6rec3).2

/-- The stored table with the middle record's `reasoning_trace` altered in
storage (the hash and prev_hash columns untouched, as flipping a bit of the
`reason` text leaves them). -/
def s6TamperedTable : List DecisionRecord :=
  s6Ledger.table.map fun r =>
    if r.id = "id-2" then { r with reasoning_trace := "TAMPERED" } else r

/-- The ledger as read back by `verify_chain` after the tampering. -/
def s6TamperedLedger : DecisionLedgerState :=
  { s6Ledger with table := s6TamperedTable }

/-- A dev passport service (HS256: both keys are the shared secret). -/
def svcC2 : PassportService :=
  { private_key := "dev-shared-secret", public_key := "dev-shared-secret" }

/-- Payload of an old passport that has expired by `now = 200`. -/
def oldExpiredPayload : JwtPayload :=
  { sub := "agent-1", jti := "jti-old", exp := 100 }

/-- An old, expired (but well-formed and correctly signed) token. -/
def oldExpiredToken : JwtToken :=
  .signed oldExpiredPayload "dev-shared-secret"

/-- Payload of an old passport still valid at `now = 200`. -/
def oldValidPayload : JwtPayload :=
  { sub := "agent-1", jti := "jti-old", exp := 300 }

def oldValidToken : JwtToken :=
  .signed oldValidPayload "dev-shared-secret"

/-- The replacement passport being issued by `rotate`. -/
def newPassportC2 : AgentPassport :=
  { agent_id := "agent-1", jti := "jti-new", expires_at := 100000,
    tier := "T2", trust_score := dec 8 1, authority_limit := 50000,
    allowed_environments := ["edge"] }

/-- Prophecy run of spec scenario S7: trust 0.55, authority limit 10000,
amount 9000, tier T3, historical success rate 0.8. -/
def prophecyS7 : ProphecyResult :=
  ProphecyEngine.simulate "agent-1" "execute" 9000 (dec 55 2) "T3" 10000
    (dec 8 1) "auth ratio at 90 percent"

/-! ## Sanity theorems

Cross-checks of the executable infrastructure: SHA-256 against the FIPS
180-2 test vectors, the serializer and hash pipeline against CPython's
`json.dumps(..., sort_keys=True)` + `hashlib.sha256`, and the
kernel-computable rational operations against Mathlib's. -/

theorem sha256_vector_empty :
    sha256Hex "" =
      "e3b0c44298fc1c149afbf4c8996fb92427ae41e4649b934ca495991b7852b855" := by
  decide

theorem sha256_vector_abc :
    sha256Hex "abc" =
      "ba7816bf8f01cfea414140de5dae2223b00361a396177a9cb410ff61f20015ad" := by
  decide

theorem sha256_vector_two_blocks :
    sha256Hex "abcdbcdecdefdefgefghfghighijhijkijkljklmklmnlmnomnopnopq" =
      "248d6a61d20638b8e5c026930c3e6039a33ce45964ff2167f6ecedd419db06c1" := by
  decide

/-- The canonical text of the example decision payload, byte for byte as
CPython serializes it. -/
theorem pyDumps_matches_cpython :
    pyDumps exampleDecision.hashPayload =
      "\x7b\"action_type\": \"write\", \"agent_id\": \"agent-1\", \"amount\": 45000.0, \"environment\": \"edge\", \"id\": \"d-1\", \"timestamp\": \"2026-01-01T00:00:00+00:00\", \"verdict\": \"allow\"\x7d" := by
  decide

/-- The example decision hash, as CPython computes it. -/
theorem decision_hash_matches_cpython :
    exampleDecision.hash =
      "c00dabe9d9d48c762502250ec87f2c4d18f10b818ec67ccbe5d7a8094b87f3cc" := by
  decide

/-- The example bundle hash (rules serialized in bundle order), as CPython
computes it. -/
theorem bundle_hash_matches_cpython :
    exampleBundle.hash =
      "b371f0776b6286eebfd70b756a324339d4736fd839082e34105b58b0d5171101" := by
  decide

/-- The id-sorted bundle hash the specification describes, as CPython
computes it on the sorted payload. -/
theorem sorted_bundle_hash_matches_cpython :
    specBundleHashSorted "v2026.01.01-001" [ruleB, ruleA] "" =
      "973db0c4e8c4ae46278c6f5f0af1508a541973ee369f045573592f061c13699a" := by
  decide

theorem dec_eq_div (n : ℤ) (k : Nat) : dec n k = (n : ℚ) / ((10 : ℚ) ^ k) := by
  rw [dec, Rat.normalize_eq_mkRat, Rat.mkRat_eq_divInt, Rat.divInt_eq_div]
  push_cast
  ring

theorem qadd_eq (a b : ℚ) : qadd a b = a + b := by
  rw [qadd, Rat.normalize_eq_mkRat, Rat.add_def, Rat.normalize_eq_mkRat]

theorem qmul_eq (a b : ℚ) : qmul a b = a * b := by
  rw [qmul, Rat.normalize_eq_mkRat, Rat.mul_def, Rat.normalize_eq_mkRat]

theorem qneg_eq (a : ℚ) : qneg a = -a := by
  refine Rat.ext ?_ ?_ <;> simp [qneg]

theorem qsub_eq (a b : ℚ) : qsub a b = a - b := by
  rw [qsub, qadd_eq, qneg_eq, sub_eq_add_neg]

theorem qdiv_eq (a b : ℚ) : qdiv a b = a / b := by
  rcases lt_trichotomy b.num 0 with hn | hn | hn
  · have h : qdiv a b = Rat.normalize (-(a.num * (b.den : ℤ))) (a.den * (-b.num).toNat)
        (Nat.mul_ne_zero a.den_nz (by intro hz; have := Int.toNat_eq_zero.mp hz; omega)) := by
      rw [qdiv, dif_neg (by omega), dif_pos hn]
    rw [h, Rat.normalize_eq_mkRat, Rat.mkRat_eq_divInt]
    rw [show ((a.den * (-b.num).toNat : ℕ) : ℤ) = -((a.den : ℤ) * b.num) by
      push_cast [Int.toNat_of_nonneg (by omega : (0 : ℤ) ≤ -b.num)]; ring]
    rw [Rat.divInt_neg, neg_neg]
    conv_rhs => rw [← Rat.num_divInt_den a, ← Rat.num_divInt_den b]
    rw [Rat.divInt_div_divInt]
  · have hb : b = 0 := Rat.num_eq_zero.mp hn
    rw [hb]
    simp [qdiv]
  · have h : qdiv a b = Rat.normalize (a.num * (b.den : ℤ)) (a.den * b.num.toNat)
        (Nat.mul_ne_zero a.den_nz (by intro hz; exact absurd (Int.toNat_eq_zero.mp hz) (not_le.mpr hn))) := by
      rw [qdiv, dif_pos hn]
    rw [h, Rat.normalize_eq_mkRat, Rat.mkRat_eq_divInt]
    rw [show ((a.den * b.num.toNat : ℕ) : ℤ) = (a.den : ℤ) * b.num by
      push_cast [Int.toNat_of_nonneg (le_of_lt hn)]; ring]
    conv_rhs => rw [← Rat.num_divInt_den a, ← Rat.num_divInt_den b]
    rw [Rat.divInt_div_divInt]

theorem qmin_eq (a b : ℚ) : qmin a b = min a b := by
  rw [qmin, min_def]

/-! ## Claim C1 — gateway local ledger hash chain -/

/-- C1 (counterexample).  The claim says each appended gateway-ledger
record hashes the canonicalized eight fields *including `prev_hash`* (empty
for the first record).  The very first record the gateway appends refutes
it: its stored hash is the SHA-256 of the seven-field payload without any
`prev_hash` key, which differs from the SHA-256 of the claimed chained
payload with `prev_hash = ""`; indeed `LocalDecision` carries no prev-hash
at all. -/
theorem c1_counterexample :
    (LocalLedger.record_decision { gateway_id := "edge-gateway-001" }
        "agent-1" "write" "doc-1" 45000 "edge" "allow"
        "All local policies passed" "jti-1" "d-1"
        "2026-01-01T00:00:00+00:00").2.entries = [exampleDecision] ∧
    exampleDecision.hash ≠ specChainedHash exampleDecision "" := by
  constructor
  · rfl
  · decide

/-- C1 (amended).  Every `record_decision` call appends exactly one record
whose stored `hash` is the SHA-256 of the canonicalized seven fields
`{id, agent_id, action_type, verdict, amount, environment, timestamp}` —
with no `prev_hash` field and no link to the previous record — and updates
`last_decision_id` to the new record's id. -/
theorem c1_theorem (l : LocalLedger) (agent_id action_type resource : String)
    (amount : ℚ) (environment verdict reason passport_jti id timestamp : String) :
    let d := mkLocalDecision agent_id action_type resource amount environment
      verdict reason passport_jti l.gateway_id id timestamp
    let r := l.record_decision agent_id action_type resource amount environment
      verdict reason passport_jti id timestamp
    r.1 = d.id ∧
    r.2.entries = l.entries ++ [d] ∧
    d.hash = sha256Hex (pyDumps d.hashPayload) ∧
    r.2.last_decision_id = d.id ∧
    r.2.gateway_id = l.gateway_id :=
  ⟨rfl, rfl, rfl, rfl, rfl⟩

/-! ## Claim C3 — bundle hash and integrity check -/

/-- C3 (counterexample).  The claim says `b.hash` is the SHA-256 of the
canonicalized `{version, rules sorted by rule id, parent_hash}`.  A bundle
whose two rules arrive out of id order refutes it: the code hashes rules in
bundle order, and the digest differs from the id-sorted digest.  The
integrity half of the claim does hold: `verify_integrity` accepts this
bundle. -/
theorem c3_counterexample :
    exampleBundle.verify_integrity = true ∧
    exampleBundle.hash ≠
      specBundleHashSorted "v2026.01.01-001" [ruleB, ruleA] "" := by
  constructor
  · decide
  · decide

/-- C3 (amended).  Every published bundle's `hash` is the SHA-256 of the
canonicalized JSON of `{version, rules in bundle order, parent_hash}`
(object keys sorted, rule list order preserved), and `verify_integrity`
accepts a bundle exactly when recomputing this hash from its payload
reproduces the stored `hash`. -/
theorem c3_theorem (version : String) (rules : List PolicyRule)
    (parent_hash : String) (metadata : List (String × PyJson)) (id : String) :
    (mkPolicyBundle version rules parent_hash metadata id).hash
      = sha256Hex (pyDumps (bundleHashPayload version rules parent_hash)) ∧
    ∀ b : PolicyBundle,
      b.verify_integrity = true ↔
        b.hash = sha256Hex (pyDumps (bundleHashPayload b.version b.rules b.parent_hash)) := by
  refine ⟨rfl, fun b => ?_⟩
  simp [PolicyBundle.verify_integrity, PolicyBundle.compute_hash, computeBundleHash]

/-! ## Claim C4 — uniqueness of bundle parent hashes -/

/-- C4 (counterexample).  The sequence `create v1; create v2; rollback();
create v3` publishes three bundles of which `v2` and `v3` both carry
`v1`'s hash as `parent_hash`: rollback repoints `current` at `v1`, and the
next `create_bundle` takes the current tip's hash as parent, so two
distinct published bundles share a `parent_hash`. -/
theorem c4_counterexample :
    (rollbackScenario.2.bundles.map PolicyBundle.version = ["v1", "v2", "v3"]) ∧
    ((rollbackScenario.2.bundles.map PolicyBundle.parent_hash).getD 1 ""
      = (rollbackScenario.2.bundles.map PolicyBundle.parent_hash).getD 2 "-") ∧
    ((rollbackScenario.2.bundles.map PolicyBundle.parent_hash).getD 1 ""
      ≠ (rollbackScenario.2.bundles.map PolicyBundle.parent_hash).getD 0 "") := by
  refine ⟨by decide, by decide, by decide⟩

theorem chainSeg_snoc {prev tip : String} {l : List PolicyBundle}
    {b : PolicyBundle} (h : chainSeg prev l tip) (hb : b.parent_hash = tip) :
    chainSeg prev (l ++ [b]) b.hash := by
  induction l generalizing prev with
  | nil =>
      simp only [chainSeg] at h
      subst h
      exact ⟨hb, rfl⟩
  | cons x xs ih =>
      exact ⟨h.1, ih h.2⟩

theorem chainSeg_chainedFrom {prev tip : String} {l : List PolicyBundle}
    (h : chainSeg prev l tip) : chainedFrom prev l := by
  induction l generalizing prev with
  | nil => trivial
  | cons x xs ih => exact ⟨h.1, ih h.2⟩

theorem applyCreates_chainSeg
    (ops : List (List PolicyRule × String × String))
    (s : PolicyDistributionService)
    (h : chainSeg "" s.bundles s.tipHash) :
    chainSeg "" (s.applyCreates ops).bundles (s.applyCreates ops).tipHash := by
  induction ops generalizing s with
  | nil => exact h
  | cons op rest ih =>
      refine ih _ ?_
      exact chainSeg_snoc h rfl

/-- C4 (amended).  With no rollback in the history the published bundles do
chain: starting from the empty store, any sequence of `create_bundle` calls
yields a bundle list in which the first bundle's `parent_hash` is `""` and
each later bundle's `parent_hash` is the hash of the bundle published
immediately before it — so bundles with distinct predecessors have the
predecessors' hashes as distinct provenance.  `rollback` itself never
creates or removes a bundle (it only repoints `current`), but — as the
counterexample shows — a `create_bundle` after a rollback reuses the
rollback target's hash, so global uniqueness of `parent_hash` does not
hold. -/
theorem c4_theorem :
    (∀ ops : List (List PolicyRule × String × String),
      chainedFrom "" (PolicyDistributionService.applyCreates {} ops).bundles) ∧
    (∀ (s : PolicyDistributionService) (target : String),
      ((s.rollback target).2).bundles = s.bundles) := by
  constructor
  · intro ops
    exact chainSeg_chainedFrom (applyCreates_chainSeg ops {} rfl)
  · intro s target
    rw [PolicyDistributionService.rollback]
    split
    · rw [PolicyDistributionService.rollbackTo]
      cases s.get_bundle_by_version target <;> rfl
    · cases h : s.rollback_stack.getLast? with
      | none => rfl
      | some prev =>
          simp only [h, PolicyDistributionService.rollbackTo]
          cases PolicyDistributionService.get_bundle_by_version
            { s with rollback_stack := s.rollback_stack.dropLast } prev <;> rfl

/-! ## Claim C5 — first-failing-rule semantics of the local enforcer -/

theorem evaluateAux_all_pass (tier : String) (trust limit : ℚ)
    (action : String) (amount : ℚ) (ctx : List (String × String))
    (rules : List ERule) (n : Nat)
    (h : ∀ r ∈ rules,
      LocalPolicyEnforcer.evalRule r tier trust limit action amount ctx = true) :
    LocalPolicyEnforcer.evaluateAux tier trust limit action amount ctx rules n =
      { verdict := "allow", reason := "All local policies passed",
        rules_checked := n + rules.length } := by
  induction rules generalizing n with
  | nil => rfl
  | cons r rest ih =>
      have hr := h r (List.mem_cons_self r rest)
      rw [LocalPolicyEnforcer.evaluateAux, if_pos hr,
        ih (n + 1) (fun x hx => h x (List.mem_cons_of_mem r hx))]
      congr 1
      simp only [List.length_cons]
      omega

theorem evaluateAux_first_fail (tier : String) (trust limit : ℚ)
    (action : String) (amount : ℚ) (ctx : List (String × String))
    (pre : List ERule) (rule : ERule) (post : List ERule) (n : Nat)
    (hpre : ∀ r ∈ pre,
      LocalPolicyEnforcer.evalRule r tier trust limit action amount ctx = true)
    (hrule : LocalPolicyEnforcer.evalRule rule tier trust limit action amount ctx
      = false) :
    LocalPolicyEnforcer.evaluateAux tier trust limit action amount ctx
        (pre ++ rule :: post) n =
      { verdict := rule.on_fail.getD "deny",
        reason := LocalPolicyEnforcer.failReason rule,
        rules_checked := n + pre.length + 1 } := by
  induction pre generalizing n with
  | nil =>
      rw [List.nil_append, LocalPolicyEnforcer.evaluateAux, if_neg (by
        rw [hrule]; exact Bool.false_ne_true)]
      congr 1
  | cons r rest ih =>
      have hr := hpre r (List.mem_cons_self r rest)
      rw [List.cons_append, LocalPolicyEnforcer.evaluateAux, if_pos hr,
        ih (n + 1) (fun x hx => hpre x (List.mem_cons_of_mem r hx))]
      congr 1
      simp only [List.length_cons]
      omega

/-- C5 (confirmed).  The local enforcer walks the loaded rules in bundle
order: if every rule passes (in particular on an empty bundle) the verdict
is `allow` with all rules counted; otherwise the first failing rule decides
the outcome, the verdict being that rule's `on_fail` value (the dict
default `"deny"` when absent, `"escalate"` when it says so), with
`rules_checked` counting through that rule. -/
theorem c5_theorem (tier : String) (trust limit : ℚ) (action : String)
    (amount : ℚ) (ctx : List (String × String)) :
    (∀ rules : List ERule,
      (∀ r ∈ rules,
        LocalPolicyEnforcer.evalRule r tier trust limit action amount ctx = true) →
      LocalPolicyEnforcer.evaluate rules tier trust limit action amount ctx =
        { verdict := "allow", reason := "All local policies passed",
          rules_checked := rules.length }) ∧
    (∀ (pre : List ERule) (rule : ERule) (post : List ERule),
      (∀ r ∈ pre,
        LocalPolicyEnforcer.evalRule r tier trust limit action amount ctx = true) →
      LocalPolicyEnforcer.evalRule rule tier trust limit action amount ctx = false →
      LocalPolicyEnforcer.evaluate (pre ++ rule :: post) tier trust limit action
          amount ctx =
        { verdict := rule.on_fail.getD "deny",
          reason := LocalPolicyEnforcer.failReason rule,
          rules_checked := pre.length + 1 }) := by
  constructor
  · intro rules h
    rw [LocalPolicyEnforcer.evaluate,
      evaluateAux_all_pass tier trust limit action amount ctx rules 0 h]
    congr 1
    omega
  · intro pre rule post hpre hrule
    rw [LocalPolicyEnforcer.evaluate,
      evaluateAux_first_fail tier trust limit action amount ctx pre rule post 0
        hpre hrule]
    congr 1
    omega

/-- C5 (witness): spec scenario S2 — `POL-1` (amount cap 100000) passes at
amount 80000, `POL-2` (authority limit, `on_fail = escalate`) fails against
an authority limit of 50000, so the verdict is `escalate` after checking
two rules. -/
theorem c5_witness :
    LocalPolicyEnforcer.evaluate
      [{ type := "amount_limit", max_amount := some 100000,
         name := some "POL-1", on_fail := some "deny" },
       { type := "authority_limit", name := some "POL-2",
         on_fail := some "escalate" }]
      "T2" (dec 8 1) 50000 "write" 80000 [] =
    { verdict := "escalate",
      reason := LocalPolicyEnforcer.failReason
        { type := "authority_limit", name := some "POL-2",
          on_fail := some "escalate" },
      rules_checked := 2 } := by
  have h := c5_theorem "T2" (dec 8 1) 50000 "write" 80000 []
  exact h.2
    [{ type := "amount_limit", max_amount := some 100000,
       name := some "POL-1", on_fail := some "deny" }]
    { type := "authority_limit", name := some "POL-2",
      on_fail := some "escalate" }
    [] (by decide) (by decide)

/-! ## Claim C6 — `status_check` at the edge -/

/-- C6 (counterexample).  The claim says the *local* enforcer passes a
`status_check` rule iff the agent's status is `"active"`, an inactive agent
receiving the rule's `on_fail` verdict.  But the edge enforcer has no
`status_check` handler at all — the rule falls into the unknown-type
fail-open branch — so even with a suspended status in the request context
the bundle `[status_check, on_fail=deny]` yields `allow`, not `deny`. -/
theorem c6_counterexample :
    LocalPolicyEnforcer.evaluate
        [{ type := "status_check", name := some "POL-S", on_fail := some "deny" }]
        "T3" (dec 1 1) 0 "write" 0 [("status", "suspended")] =
      { verdict := "allow", reason := "All local policies passed",
        rules_checked := 1 } ∧
    "allow" ≠ "deny" := by
  exact ⟨by decide, by decide⟩

/-- C6 (amended).  At the edge a `status_check` rule always passes —
`LocalPolicyEnforcer._evaluate_rule` treats it as an unknown type and
fails open, regardless of any status information — while the cloud-side
`_evaluate_rule` in the sentinel router is where `status_check` is
implemented: it passes exactly when `agent.status == "active"`. -/
theorem c6_theorem :
    (∀ (rule : ERule) (tier : String) (trust limit : ℚ) (action : String)
        (amount : ℚ) (ctx : List (String × String)),
      rule.type = "status_check" →
      LocalPolicyEnforcer.evalRule rule tier trust limit action amount ctx = true) ∧
    (∀ (rule : SentinelRule) (agent : SentinelAgent) (actionAmount : Option ℚ),
      rule.type = some "status_check" →
      sentinelEvalRule rule agent actionAmount = (agent.status == "active")) := by
  constructor
  · intro rule tier trust limit action amount ctx h
    rw [LocalPolicyEnforcer.evalRule, h]
    rw [if_neg (by decide), if_neg (by decide), if_neg (by decide),
      if_neg (by decide), if_neg (by decide), if_neg (by decide)]
  · intro rule agent actionAmount h
    rw [sentinelEvalRule, h]
    rw [if_neg (by decide), if_neg (by decide), if_neg (by decide),
      if_pos (by decide)]

/-- C6 (witness): a `status_check` rule passes at the edge for an agent
with no status at all, while the cloud evaluator fails it for a suspended
agent. -/
theorem c6_witness :
    LocalPolicyEnforcer.evalRule { type := "status_check" } "T1" 1 1 "write" 0 []
      = true ∧
    sentinelEvalRule { type := some "status_check" }
      { status := "suspended", tier := "T1" } none = false := by
  constructor
  · exact c6_theorem.1 { type := "status_check" } "T1" 1 1 "write" 0 [] rfl
  · have h := c6_theorem.2 { type := some "status_check" }
      { status := "suspended", tier := "T1" } none rfl
    rw [h]
    decide

/-! ## Claim C7 — chain verification and tamper detection -/

/-- C7 (code evaluated at the failing input).  Three records are appended
through `DecisionLedger.record`; the middle record's `reason` text is then
altered in storage.  The claim (and spec scenario S6) says `VerifyChain`
recomputes every record's hash, keeps checking past a break, and returns
`{valid: false, broken_at: id-2, integrity_pct ≈ 66.7}`.  The code's
`verify_chain` only compares each stored `prev_hash` with the previous
stored `hash` — it never recomputes any record's hash and stops at the
first linkage break — so on this tampered store it returns
`{valid: true, checked: 3, broken_at: none, integrity_pct: 100}`.  (The
tampering is invisible even to per-record `verify`, because
`reasoning_trace` is not part of the hash payload.) -/
theorem c7_theorem :
    (s6Ledger.table.map DecisionRecord.reasoning_trace =
      ["approved within limits", "approved within limits",
       "approved within limits"]) ∧
    (s6TamperedTable.map DecisionRecord.reasoning_trace =
      ["approved within limits", "TAMPERED", "approved within limits"]) ∧
    (DecisionLedger.verify_chain s6TamperedLedger none 100).valid = true ∧
    (DecisionLedger.verify_chain s6TamperedLedger none 100).checked = 3 ∧
    (DecisionLedger.verify_chain s6TamperedLedger none 100).broken_at = none ∧
    (DecisionLedger.verify_chain s6TamperedLedger none 100).integrity_pct = 100 ∧
    (∀ r ∈ s6TamperedTable, r.verify = true) := by
  refine ⟨by decide, by decide, by decide, by decide, by decide, by decide,
    by decide⟩

/-! ## Claim C8 — degraded mode after failed syncs -/

/-- C8 (code evaluated at the failing input).  The claim says that after
the sync engine has failed to sync for at least two intervals the gateway's
mode becomes `"degraded"` in `/status` and in every authorize response.
But no sync handler ever touches the verifier's mode — `set_mode` exists
and is never called — so after two (indeed any number of) completely
failed sync ticks the gateway still reports `"online"` everywhere. -/
theorem c8_theorem :
    (∀ (st : GatewayState) (pf : Option (List ERule × String))
        (rf : Option (List String)),
      (syncTick st pf rf).verifier.mode = st.verifier.mode) ∧
    statusMode (failedTicks 2 (bootGateway "dev-shared-secret"
      "http://governance-api:8000" "edge-gateway-001")) = "online" ∧
    authorizeRespMode (failedTicks 2 (bootGateway "dev-shared-secret"
      "http://governance-api:8000" "edge-gateway-001")) = "online" ∧
    "online" ≠ "degraded" := by
  refine ⟨?_, rfl, rfl, by decide⟩
  intro st pf rf
  cases pf <;> cases rf <;> rfl

/-! ## Claim C2 — passport rotation -/

/-- C2 (counterexample).  The claim quantifies over every decodable old
token, *including expired ones*.  `rotate` calls the full `verify`, which
raises `ExpiredSignatureError` on an expired token; the `except … pass`
then skips revocation entirely.  So rotating an expired (decodable,
correctly signed) old token leaves the revocation set empty, and a later
`Verify(old)` still fails as `Expired`, not `Revoked`. -/
theorem c2_counterexample :
    PassportService.verify svcC2 200 oldExpiredToken = .expired ∧
    (svcC2.rotate oldExpiredToken newPassportC2 200).1.revocation_set = [] ∧
    PassportService.verify (svcC2.rotate oldExpiredToken newPassportC2 200).1
      200 oldExpiredToken = .expired ∧
    PVerify.expired ≠ PVerify.revoked := by
  refine ⟨by decide, by decide, by decide, by decide⟩

/-- C2 (amended).  For an old token that `verify` accepts at rotation time
(well-formed, correctly signed, unexpired, not yet revoked), `rotate` adds
its jti to the revocation set before issuing, so that afterwards
`Verify(old)` fails as `Revoked` and `Verify(new)` returns the new claims
(given the service's symmetric dev keys, an unexpired new passport and a
fresh jti).  For an old token that fails verification — e.g. an expired
one — `rotate` issues the new token without touching the revocation set. -/
theorem c2_theorem (svc : PassportService) (old_token : JwtToken)
    (new_passport : AgentPassport) (now : ℤ) (p : JwtPayload)
    (hold : svc.verify now old_token = .ok p)
    (hkey : svc.public_key = svc.private_key)
    (hexp : ¬ new_passport.expires_at < now)
    (hjti1 : new_passport.jti ≠ p.jti)
    (hjti2 : new_passport.jti ∉ svc.revocation_set) :
    p.jti ∈ (svc.rotate old_token new_passport now).1.revocation_set ∧
    (svc.rotate old_token new_passport now).1.verify now old_token = .revoked ∧
    (svc.rotate old_token new_passport now).1.verify now
        (svc.rotate old_token new_passport now).2
      = .ok (PassportService.issuePayload new_passport now) := by
  cases old_token with
  | malformed raw => simp [PassportService.verify, jwtDecode] at hold
  | signed pl k =>
      by_cases hk : k = svc.public_key
      · by_cases he : pl.exp < now
        · simp [PassportService.verify, jwtDecode, hk, he] at hold
        · by_cases hr : pl.jti ∈ svc.revocation_set
          · simp [PassportService.verify, jwtDecode, hk, he, hr] at hold
          · have hpl : pl = p := by
              simpa [PassportService.verify, jwtDecode, hk, he, hr] using hold
            subst hpl
            have hver : svc.verify now (.signed pl k) = .ok pl := by
              simp [PassportService.verify, jwtDecode, hk, he, hr]
            have hrot : svc.rotate (.signed pl k) new_passport now
                = (svc.revoke pl.jti,
                   (svc.revoke pl.jti).issue new_passport now) := by
              simp only [PassportService.rotate, hver]
            rw [hrot]
            refine ⟨?_, ?_, ?_⟩
            · simp [PassportService.revoke]
            · simp [PassportService.verify, jwtDecode, PassportService.revoke,
                hk, he]
            · simp [PassportService.verify, PassportService.issue, jwtDecode,
                PassportService.revoke, PassportService.issuePayload, hkey,
                hexp, hjti1, hjti2]
      · simp [PassportService.verify, jwtDecode, hk] at hold

/-- C2 (witness): the dev service rotates a still-valid old token at
`now = 200`; afterwards the old jti is revoked, the old token verifies as
`Revoked`, and the new token verifies to the freshly issued claims. -/
theorem c2_witness :
    oldValidPayload.jti
      ∈ (svcC2.rotate oldValidToken newPassportC2 200).1.revocation_set ∧
    (svcC2.rotate oldValidToken newPassportC2 200).1.verify 200 oldValidToken
      = .revoked ∧
    (svcC2.rotate oldValidToken newPassportC2 200).1.verify 200
        (svcC2.rotate oldValidToken newPassportC2 200).2
      = .ok (PassportService.issuePayload newPassportC2 200) :=
  c2_theorem svcC2 oldValidToken newPassportC2 200 oldValidPayload
    (by decide) rfl (by decide) (by decide) (by decide)

/-! ## Claim C10 — revocation list replacement semantics -/

/-- C10 (confirmed).  `update_revocation_list(L)` *replaces* the verifier's
revocation cache with exactly the set of jtis in `L`.  Afterwards a
well-formed, correctly signed, unexpired token is rejected as revoked
exactly when its jti is in `L` and accepted otherwise — in particular a
jti revoked before the call but absent from `L` is accepted again. -/
theorem c10_theorem (v : PassportVerifier) (l : List String)
    (payload : JwtPayload) (now : ℤ) (hexp : ¬ payload.exp < now) :
    ((v.update_revocation_list l).revocation_set = l) ∧
    (payload.jti ∈ l →
      (v.update_revocation_list l).verify now (.signed payload v.jwt_secret)
        = { valid := false, claims := none, reason := "passport revoked",
            mode := v.mode }) ∧
    (payload.jti ∉ l →
      (v.update_revocation_list l).verify now (.signed payload v.jwt_secret)
        = { valid := true, claims := some payload, reason := "",
            mode := v.mode }) := by
  refine ⟨rfl, ?_, ?_⟩ <;> intro hm <;>
    simp [PassportVerifier.update_revocation_list, PassportVerifier.verify,
      jwtDecode, hexp, hm]

/-- C10 (witness): `jti-1` is in the verifier's old cache; after
`update_revocation_list(["jti-2"])` a token with `jti-1` is accepted
again. -/
theorem c10_witness :
    (PassportVerifier.update_revocation_list
        { jwt_secret := "dev-shared-secret", control_plane_url := "http://cp",
          revocation_set := ["jti-1"] } ["jti-2"]).verify 50
        (.signed { sub := "agent-1", jti := "jti-1", exp := 100 }
          "dev-shared-secret")
      = { valid := true,
          claims := some { sub := "agent-1", jti := "jti-1", exp := 100 },
          reason := "", mode := "online" } := by
  have h := c10_theorem
    { jwt_secret := "dev-shared-secret", control_plane_url := "http://cp",
      revocation_set := ["jti-1"] } ["jti-2"]
    { sub := "agent-1", jti := "jti-1", exp := 100 } 50 (by decide)
  exact h.2.2 (by decide)

/-! ## Claim C9 — prophecy scenario S7 -/

/-- C9 (counterexample).  At trust 0.55, authority limit 10000, amount
9000 the authority ratio is exactly 0.9, and the code's bump condition is
the strict `auth_ratio > 0.90` — which is false — so the approve path's
risk is `0.3 + 0.3·0.9 = 0.57`, not the claimed `0.77`. -/
theorem c9_counterexample :
    (prophecyS7.paths.getD 0 ProphecyPath.dflt).path_type = "approve" ∧
    (prophecyS7.paths.getD 0 ProphecyPath.dflt).risk_score = (0.57 : ℚ) ∧
    (0.57 : ℚ) ≠ (0.77 : ℚ) := by
  refine ⟨by decide, ?_, by norm_num⟩
  have h : (prophecyS7.paths.getD 0 ProphecyPath.dflt).risk_score = dec 57 2 := by
    decide
  rw [h, dec_eq_div]
  norm_num

/-- C9 (amended).  The S7 simulation produces exactly three paths; the
approve path has risk 0.57 (no `+0.2` bump, since the ratio 0.9 is not
strictly above 0.9), trust delta +0.01 and weight
`round(0.8·(1−0.57)·0.8, 3) = 0.275`; the escalate weight is 0.585, the
deny weight 0.03, and the recommended path is `escalate`, the argmax of
the weights. -/
theorem c9_theorem :
    prophecyS7.paths.length = 3 ∧
    (prophecyS7.paths.getD 0 ProphecyPath.dflt).path_type = "approve" ∧
    (prophecyS7.paths.getD 0 ProphecyPath.dflt).predicted_trust_delta
      = (0.01 : ℚ) ∧
    (prophecyS7.paths.getD 0 ProphecyPath.dflt).risk_score = (0.57 : ℚ) ∧
    (prophecyS7.paths.getD 0 ProphecyPath.dflt).recommendation_weight
      = (0.275 : ℚ) ∧
    (prophecyS7.paths.getD 1 ProphecyPath.dflt).path_type = "deny" ∧
    (prophecyS7.paths.getD 1 ProphecyPath.dflt).recommendation_weight
      = (0.03 : ℚ) ∧
    (prophecyS7.paths.getD 2 ProphecyPath.dflt).path_type = "escalate" ∧
    (prophecyS7.paths.getD 2 ProphecyPath.dflt).recommendation_weight
      = (0.585 : ℚ) ∧
    prophecyS7.recommended_path = "escalate" := by
  refine ⟨by decide, by decide, ?_, ?_, ?_, by decide, ?_, by decide, ?_,
    by decide⟩
  · have h : (prophecyS7.paths.getD 0 ProphecyPath.dflt).predicted_trust_delta
        = dec 1 2 := by decide
    rw [h, dec_eq_div]; norm_num
  · have h : (prophecyS7.paths.getD 0 ProphecyPath.dflt).risk_score
        = dec 57 2 := by decide
    rw [h, dec_eq_div]; norm_num
  · have h : (prophecyS7.paths.getD 0 ProphecyPath.dflt).recommendation_weight
        = dec 275 3 := by decide
    rw [h, dec_eq_div]; norm_num
  · have h : (prophecyS7.paths.getD 1 ProphecyPath.dflt).recommendation_weight
        = dec 3 2 := by decide
    rw [h, dec_eq_div]; norm_num
  · have h : (prophecyS7.paths.getD 2 ProphecyPath.dflt).recommendation_weight
        = dec 585 3 := by decide
    rw [h, dec_eq_div]; norm_num

end AgentGovern
